import Mathlib

/-!
Shallow embedding of the recommendation core of `src/app.py`
(wardrobe outfit recommendation and similar-reference ranking).

Numeric values are modelled by `ℚ` (exact rationals) except where the
source uses `math.sqrt` (the trending score), which is modelled over `ℝ`.
Python's built-in string `hash` is modelled as an arbitrary parameter
`pyhash : String → ℤ` (the source relies only on it being a deterministic
integer-valued function of the id).  Python dictionaries with fixed keys
are modelled as structures; `dict.get` defaults are the structures'
fields, applied at the boundary.
-/

namespace TodaysFashion

/-- A wardrobe item record (`{"id", "name", "category", "color", "tags",
"warmth", "formality", "is_preset"}` in `app.py`). -/
structure Item where
  id : String
  name : String
  category : String
  color : String
  tags : List String
  warmth : ℚ
  formality : ℚ
  is_preset : Bool
deriving DecidableEq

/-- A recommendation-request context, as built in `app.py`
(`{"temp_c", "precip_prob", "tpo", "mood", "formality_need", "season"}`).
A missing `tpo` is the empty string (falsy in Python). -/
structure Ctx where
  temp_c : Option ℚ
  precip_prob : Option ℚ
  tpo : String
  mood : List String
  formality_need : ℚ
  season : String
deriving DecidableEq

/-- A shared post: an outfit publication carrying its creation timestamp
(epoch seconds) and the context it was generated from. -/
structure Post where
  id : String
  created_at : ℝ
  ctx : Ctx

/-- The persisted database snapshot (`db["items"]`, `db["posts"]`,
`db["likes"]`); `likes` models `likes_map.get(post_id, 0)`. -/
structure Db where
  items : List Item
  posts : List Post
  likes : String → ℤ

/-- `season_from_temp` (app.py lines 172–181). -/
def season_from_temp : Option ℚ → String
  | none => "mild"
  | some t =>
    if t ≤ 5 then "winter"
    else if t ≤ 16 then "spring_fall"
    else if t ≤ 26 then "mild"
    else "summer"

/-- `score_item_for_context` (app.py lines 547–589), with the Python
`hash` builtin abstracted as `pyhash`.  Each `let score := ...` line
mirrors one conditional `score +=` statement of the source. -/
def score_item_for_context (pyhash : String → ℤ) (item : Item) (ctx : Ctx) : ℚ :=
  let cat := item.category
  let tags := item.tags
  let warmth := item.warmth
  let formality := item.formality
  let season := ctx.season
  let tpo := ctx.tpo
  let formality_need := ctx.formality_need
  let precip := ctx.precip_prob
  let score : ℚ := 0
  let score :=
    if tpo = "직장" ∨ tpo = "면접" ∨ tpo = "결혼식" then
      let score :=
        if cat = "상의" ∨ cat = "하의" ∨ cat = "아우터" ∨ cat = "신발" ∨ cat = "원피스" then
          score + 0.6
        else score
      let score := if "캐주얼" ∈ tags then score - 0.2 else score
      if "포멀" ∈ tags ∨ "오피스" ∈ tags then score + 0.2 else score
    else score
  let score :=
    if tpo = "운동" then
      let score :=
        if "운동" ∈ tags ∨ cat = "신발" ∨ cat = "상의" ∨ cat = "하의" then score + 0.6
        else score
      if "포멀" ∈ tags then score - 0.2 else score
    else score
  let score :=
    if tpo = "여행" ∨ tpo = "데이트" ∨ tpo = "학교" ∨ tpo = "캐주얼 외출" then score + 0.2
    else score
  let score :=
    if season = "winter" then score + 0.8 * (warmth - 0.3)
    else if season = "summer" then score + 0.8 * (0.7 - warmth)
    else score + 0.3 * (0.6 - |warmth - 0.6|)
  let score :=
    match precip with
    | none => score
    | some p =>
      if p ≥ 50 then
        let score := if "방수" ∈ tags ∨ "레인" ∈ tags then score + 0.4 else score
        if item.color = "블랙" ∨ item.color = "네이비" ∨ item.color = "그레이" then score + 0.1
        else score
      else score
  let score := score + 0.8 * (1 - |formality - formality_need|)
  score + ((pyhash item.id % 17 : ℤ) : ℚ) / 200

/-- The score of an optional item, a missing one contributing `0`
(models the conditional `tb_score +=` accumulation in `pick_best_items`). -/
def opt_score (pyhash : String → ℤ) (ctx : Ctx) : Option Item → ℚ
  | none => 0
  | some it => score_item_for_context pyhash it ctx

/-- The inner `best(cat)` of `pick_best_items` (app.py lines 598–603):
candidates of the category (the `by_cat` grouping preserves list order,
i.e. it is an order-preserving filter), stably sorted by score
descending, first element.  `sorted(..., reverse=True)` in Python is a
stable descending sort, which `List.insertionSort` with the relation
`score b ≤ score a` reproduces. -/
def best (pyhash : String → ℤ) (items : List Item) (ctx : Ctx) (cat : String) : Option Item :=
  (List.insertionSort
    (fun a b => score_item_for_context pyhash b ctx ≤ score_item_for_context pyhash a ctx)
    (items.filter (fun it => it.category = cat))).head?

/-- The 7-slot outfit dictionary returned by `pick_best_items`. -/
structure Outfit where
  outer : Option Item
  top : Option Item
  bottom : Option Item
  dress : Option Item
  shoes : Option Item
  bag : Option Item
  accessory : Option Item
deriving DecidableEq

/-- The initial 7-slot dict of `pick_best_items` (app.py lines 605–613):
every slot holds its own per-category best pick. -/
def best_outfit (pyhash : String → ℤ) (db : Db) (ctx : Ctx) : Outfit :=
  { outer := best pyhash db.items ctx "아우터"
    top := best pyhash db.items ctx "상의"
    bottom := best pyhash db.items ctx "하의"
    dress := best pyhash db.items ctx "원피스"
    shoes := best pyhash db.items ctx "신발"
    bag := best pyhash db.items ctx "가방"
    accessory := best pyhash db.items ctx "악세서리" }

/-- `pick_best_items` (app.py lines 592–628): per-category best pick,
then the dress-vs-separates conflict rule (lines 615–627).  Note that the
source clears `상의`/`하의` when the dress wins the comparison, and
otherwise leaves the outfit — including the `원피스` slot — untouched. -/
def pick_best_items (pyhash : String → ℤ) (db : Db) (ctx : Ctx) : Outfit :=
  let outfit := best_outfit pyhash db ctx
  match outfit.dress with
  | none => outfit
  | some d =>
    let dress_score := score_item_for_context pyhash d ctx
    let tb_score := opt_score pyhash ctx outfit.top + opt_score pyhash ctx outfit.bottom
    if dress_score > tb_score / 1.8 then { outfit with top := none, bottom := none }
    else outfit

/-- One rendered line of `outfit_to_text`. -/
def item_line (cat : String) (it : Item) : String :=
  let mark := if it.is_preset then " (프리셋)" else ""
  "- " ++ cat ++ ": " ++ it.name ++ " (" ++ it.color ++ ")" ++ mark

/-- The "no items registered yet" placeholder of `outfit_to_text`. -/
def no_items_text : String := "옷장에 아이템을 먼저 등록해줘!"

/-- `outfit_to_text` (app.py lines 631–638): one line per populated slot
in the fixed category order, joined by newlines; the placeholder string
when no slot is populated. -/
def outfit_to_text (o : Outfit) : String :=
  let slots : List (String × Option Item) :=
    [("아우터", o.outer), ("상의", o.top), ("하의", o.bottom), ("원피스", o.dress),
     ("신발", o.shoes), ("가방", o.bag), ("악세서리", o.accessory)]
  let parts := slots.filterMap (fun s => s.2.map (item_line s.1))
  if parts = [] then no_items_text else String.intercalate "\n" parts

/-- `bucket_temp` (app.py lines 665–666): `int(math.floor(temp / 5.0))`. -/
def bucket_temp (t : ℚ) : ℤ := ⌊t / 5⌋

/-- `bucket_precip` (app.py lines 669–676). -/
def bucket_precip (p : ℚ) : ℤ :=
  if p < 20 then 0
  else if p < 50 then 1
  else if p < 80 then 2
  else 3

/-- `jaccard` (app.py lines 679–685) on the two tag/mood lists viewed as
sets: `1.0` when both are empty, `0.0` when exactly one is, otherwise
`len(A & B) / max(1, len(A | B))`. -/
def jaccard (a b : List String) : ℚ :=
  let A := a.toFinset
  let B := b.toFinset
  if A = ∅ ∧ B = ∅ then 1
  else if A = ∅ ∨ B = ∅ then 0
  else ((A ∩ B).card : ℚ) / ((max 1 (A ∪ B).card : ℕ) : ℚ)

/-- The temperature-bucket match score inlined at app.py line 694. -/
def temp_bucket_score (ta tb : ℚ) : ℚ :=
  if bucket_temp ta = bucket_temp tb then 1
  else if |bucket_temp ta - bucket_temp tb| = 1 then 0.3
  else 0

/-- The precipitation-bucket match score inlined at app.py line 699. -/
def precip_bucket_score (pa pb : ℚ) : ℚ :=
  if bucket_precip pa = bucket_precip pb then 1
  else if |bucket_precip pa - bucket_precip pb| = 1 then 0.4
  else 0

/-- The (weighted contribution, weight) pair the temperature dimension
adds to `score`/`w_sum` in `ctx_similarity` (app.py lines 692–695):
present only when both contexts carry a temperature. -/
def temp_pair : Option ℚ → Option ℚ → ℚ × ℚ
  | some ta, some tb => (temp_bucket_score ta tb * 0.30, 0.30)
  | none, _ => (0, 0)
  | some _, none => (0, 0)

/-- The (weighted contribution, weight) pair of the precipitation
dimension (app.py lines 697–700). -/
def precip_pair : Option ℚ → Option ℚ → ℚ × ℚ
  | some pa, some pb => (precip_bucket_score pa pb * 0.20, 0.20)
  | none, _ => (0, 0)
  | some _, none => (0, 0)

/-- The (weighted contribution, weight) pair of the occasion dimension
(app.py lines 702–704); `if a.get("tpo") and b.get("tpo")` is truthiness
of the two strings, i.e. both non-empty. -/
def tpo_pair (ta tb : String) : ℚ × ℚ :=
  if ta ≠ "" ∧ tb ≠ "" then ((if ta = tb then 1 else 0) * 0.30, 0.30)
  else (0, 0)

/-- The (weighted contribution, weight) pair of the mood dimension
(app.py lines 706–707), added unconditionally. -/
def mood_pair (ma mb : List String) : ℚ × ℚ :=
  (jaccard ma mb * 0.20, 0.20)

/-- `ctx_similarity` (app.py lines 688–711).  Each dimension yields a
(weighted contribution, weight) pair accumulated into `score`/`w_sum`;
finally the weighted sum is renormalised by the included weights and
clamped to `[0, 1]`, with `0` returned when no weight was accumulated. -/
def ctx_similarity (a b : Ctx) : ℚ :=
  let tw := temp_pair a.temp_c b.temp_c
  let pw := precip_pair a.precip_prob b.precip_prob
  let ow := tpo_pair a.tpo b.tpo
  let mw := mood_pair a.mood b.mood
  let score := tw.1 + pw.1 + ow.1 + mw.1
  let w_sum := tw.2 + pw.2 + ow.2 + mw.2
  if w_sum ≤ 0 then 0
  else max 0 (min 1 (score / w_sum))

/-- `trending_score` (app.py lines 714–716): likes over the square root
of the age in hours, floored at one hour; `now` models `now_ts()`. -/
noncomputable def trending_score (now : ℝ) (p : Post) (likes : ℤ) : ℝ :=
  let age_hr := max 1 ((now - p.created_at) / 3600)
  (likes : ℝ) / Real.sqrt age_hr

/-- The blended final score computed inline in `get_similar_references`
(app.py line 729): `sim * 0.75 + min(1.0, trend / 5.0) * 0.25`. -/
noncomputable def final_score (db : Db) (ctx : Ctx) (now : ℝ) (p : Post) : ℝ :=
  let sim : ℝ := (ctx_similarity ctx p.ctx : ℝ)
  let trend := trending_score now p (db.likes p.id)
  sim * 0.75 + min 1 (trend / 5) * 0.25

/-- `get_similar_references` (app.py lines 719–739): score every post,
stably sort by final score descending (`list.sort(key=..., reverse=True)`
is stable), take the first `top_k`.  The `_sim`/`_likes` display
annotations the source copies onto the returned records are carried in
the tuples and dropped at the end, where the model returns the posts. -/
noncomputable def get_similar_references (db : Db) (ctx : Ctx) (now : ℝ) (top_k : ℕ) :
    List Post :=
  let scored : List (ℝ × ℚ × ℤ × Post) :=
    db.posts.map (fun p =>
      (final_score db ctx now p, ctx_similarity ctx p.ctx, db.likes p.id, p))
  let sorted := List.insertionSort (fun x y => y.1 ≤ x.1) scored
  (sorted.take top_k).map (fun x => x.2.2.2)

/-! ### Concrete example data used by counterexamples and witnesses -/

/-- A hash assigning every id the value `0` (one admissible instance of
Python's deterministic per-process string hash). -/
def hash0 : String → ℤ := fun _ => 0

/-- A hash assigning every id the value `16` (hash residue `16 mod 17`). -/
def hash16 : String → ℤ := fun _ => 16

/-- A plain context: no weather data, occasion `기타`, no moods. -/
def ctx0 : Ctx :=
  { temp_c := none, precip_prob := none, tpo := "기타", mood := [],
    formality_need := 0.5, season := "mild" }

/-- A context with every dimension missing (no weather, falsy occasion,
empty mood list). -/
def ctxE : Ctx :=
  { temp_c := none, precip_prob := none, tpo := "", mood := [],
    formality_need := 0.5, season := "mild" }

def top0 : Item :=
  { id := "t1", name := "티셔츠", category := "상의", color := "화이트",
    tags := [], warmth := 0.6, formality := 0.5, is_preset := false }

def bottom0 : Item :=
  { id := "b1", name := "슬랙스", category := "하의", color := "블랙",
    tags := [], warmth := 0.6, formality := 0.5, is_preset := false }

def dress0 : Item :=
  { id := "d1", name := "원피스A", category := "원피스", color := "레드",
    tags := [], warmth := 0.6, formality := 0.5, is_preset := false }

/-- Wardrobe in which the separates beat the dress in the conflict rule:
all three items score `0.98` under `hash0`/`ctx0`, so
`dress_score = 0.98 ≤ (0.98 + 0.98) / 1.8`. -/
def db0 : Db := { items := [top0, bottom0, dress0], posts := [], likes := fun _ => 0 }

def topW : Item :=
  { id := "t2", name := "반팔", category := "상의", color := "그린",
    tags := [], warmth := 0.1, formality := 1, is_preset := false }

def bottomW : Item :=
  { id := "b2", name := "청바지", category := "하의", color := "블루",
    tags := [], warmth := 0.1, formality := 1, is_preset := false }

def dressW : Item :=
  { id := "d2", name := "원피스B", category := "원피스", color := "베이지",
    tags := [], warmth := 0.6, formality := 0.5, is_preset := false }

/-- Wardrobe in which the dress wins the conflict rule: under
`hash0`/`ctx0` the dress scores `0.98` and top/bottom score `0.43` each,
and `0.98 > (0.43 + 0.43) / 1.8`. -/
def db1 : Db := { items := [topW, bottomW, dressW], posts := [], likes := fun _ => 0 }

/-- An empty database. -/
def dbE : Db := { items := [], posts := [], likes := fun _ => 0 }

/-- The all-empty outfit. -/
def outfitE : Outfit :=
  { outer := none, top := none, bottom := none, dress := none,
    shoes := none, bag := none, accessory := none }

/-- A post sharing the query context `ctx0`, exactly one hour old at
evaluation time `now = 3600`; it receives 6 likes under `likesX`. -/
def postB6 : Post := { id := "pB", created_at := 0, ctx := ctx0 }

/-- Like `postB6` but with 10 likes under `likesX`. -/
def postA10 : Post := { id := "pA", created_at := 0, ctx := ctx0 }

def likesX : String → ℤ := fun id => if id = "pA" then 10 else if id = "pB" then 6 else 0

/-- Feed in which the lower-trend post `postB6` precedes the
higher-trend post `postA10`; both posts have identical similarity to the
query context and both trends exceed the cap threshold `5`. -/
def dbX : Db := { items := [], posts := [postB6, postA10], likes := likesX }

def postAW : Post := { id := "wA", created_at := 0, ctx := ctx0 }

def postBW : Post := { id := "wB", created_at := 0, ctx := ctx0 }

/-- Database giving `postAW` 5 likes and `postBW` none. -/
def dbW : Db := { items := [], posts := [], likes := fun id => if id = "wA" then 5 else 0 }

/-! ### Helper lemmas -/

theorem jaccard_self (m : List String) : jaccard m m = 1 := by
  unfold jaccard
  by_cases h : m.toFinset = ∅
  · simp [h]
  · have hpos : 0 < m.toFinset.card :=
      Finset.card_pos.mpr (Finset.nonempty_iff_ne_empty.mpr h)
    simp only [h, and_false, if_false, or_self, Finset.inter_self, Finset.union_self]
    rw [max_eq_right hpos]
    exact div_self (by exact_mod_cast hpos.ne')

theorem jaccard_comm (a b : List String) : jaccard a b = jaccard b a := by
  simp only [jaccard]
  by_cases ha : a.toFinset = ∅ <;> by_cases hb : b.toFinset = ∅ <;>
    simp [ha, hb, Finset.inter_comm, Finset.union_comm]

theorem temp_bucket_score_comm (x y : ℚ) :
    temp_bucket_score x y = temp_bucket_score y x := by
  by_cases h : bucket_temp x = bucket_temp y
  · simp [temp_bucket_score, h]
  · have h' : ¬ bucket_temp y = bucket_temp x := fun e => h e.symm
    simp [temp_bucket_score, h, h', abs_sub_comm]

theorem precip_bucket_score_comm (x y : ℚ) :
    precip_bucket_score x y = precip_bucket_score y x := by
  by_cases h : bucket_precip x = bucket_precip y
  · simp [precip_bucket_score, h]
  · have h' : ¬ bucket_precip y = bucket_precip x := fun e => h e.symm
    simp [precip_bucket_score, h, h', abs_sub_comm]

theorem temp_pair_comm (x y : Option ℚ) : temp_pair x y = temp_pair y x := by
  rcases x with _ | tx <;> rcases y with _ | ty <;>
    simp [temp_pair, temp_bucket_score_comm]

theorem precip_pair_comm (x y : Option ℚ) : precip_pair x y = precip_pair y x := by
  rcases x with _ | px <;> rcases y with _ | py <;>
    simp [precip_pair, precip_bucket_score_comm]

theorem tpo_pair_comm (x y : String) : tpo_pair x y = tpo_pair y x := by
  by_cases hxy : x = y
  · subst hxy; rfl
  · have hyx : ¬ y = x := fun e => hxy e.symm
    by_cases hx : x = "" <;> by_cases hy : y = "" <;>
      simp [tpo_pair, hx, hy, hxy, hyx]

theorem mood_pair_comm (x y : List String) : mood_pair x y = mood_pair y x := by
  simp [mood_pair, jaccard_comm]

theorem ctx_similarity_self (a : Ctx) : ctx_similarity a a = 1 := by
  unfold ctx_similarity
  rcases ht : a.temp_c with _ | t <;>
    rcases hp : a.precip_prob with _ | p <;>
    by_cases ho : a.tpo = "" <;>
    simp [temp_pair, precip_pair, tpo_pair, mood_pair, temp_bucket_score,
      precip_bucket_score, jaccard_self, ho] <;>
    norm_num

/-! ### Claims -/

/-- C5: the season derivation is total on optional temperature: an absent
temperature maps to mild; `t ≤ 5` to winter; `5 < t ≤ 16` to spring/fall;
`16 < t ≤ 26` to mild; `t > 26` to summer. -/
theorem c5_season_thresholds :
    season_from_temp none = "mild" ∧
    ∀ t : ℚ,
      (t ≤ 5 → season_from_temp (some t) = "winter") ∧
      (5 < t → t ≤ 16 → season_from_temp (some t) = "spring_fall") ∧
      (16 < t → t ≤ 26 → season_from_temp (some t) = "mild") ∧
      (26 < t → season_from_temp (some t) = "summer") := by
  refine ⟨rfl, fun t => ⟨?_, ?_, ?_, ?_⟩⟩ <;>
    intros <;> simp only [season_from_temp] <;> split_ifs <;>
    first
    | rfl
    | linarith

/-- Witness for C5 at temperatures 0, 10, 20 and 30. -/
theorem c5_season_thresholds_witness :
    season_from_temp (some 0) = "winter" ∧
    season_from_temp (some 10) = "spring_fall" ∧
    season_from_temp (some 20) = "mild" ∧
    season_from_temp (some 30) = "summer" :=
  ⟨(c5_season_thresholds.2 0).1 (by norm_num),
   ((c5_season_thresholds.2 10).2.1 (by norm_num)) (by norm_num),
   ((c5_season_thresholds.2 20).2.2.1 (by norm_num)) (by norm_num),
   (c5_season_thresholds.2 30).2.2.2 (by norm_num)⟩

/-- C4: similarity is bounded by `[0, 1]` for every pair of contexts, and
every context has similarity `1` with itself (the mood dimension is
always comparable, so this holds without any comparability proviso). -/
theorem c4_similarity_bounds (a b : Ctx) :
    0 ≤ ctx_similarity a b ∧ ctx_similarity a b ≤ 1 ∧ ctx_similarity a a = 1 := by
  refine ⟨?_, ?_, ctx_similarity_self a⟩ <;>
    · simp only [ctx_similarity]
      split_ifs with h
      · norm_num
      · first
        | exact le_max_left 0 _
        | exact max_le (by norm_num) (min_le_left 1 _)

/-- C10: context similarity is symmetric — every dimension's
contribution (temperature bucket distance, precipitation bucket
distance, occasion equality, mood Jaccard) is symmetric in its two
arguments. -/
theorem c10_similarity_comm (a b : Ctx) :
    ctx_similarity a b = ctx_similarity b a := by
  unfold ctx_similarity
  rw [temp_pair_comm, precip_pair_comm, tpo_pair_comm, mood_pair_comm]

/-- C3 counterexample: with every dimension missing on both sides (no
temperature, no precipitation, empty occasion, empty mood lists) the
code returns similarity `1`, not `0`: the mood dimension is always
counted with weight `0.2`, and the Jaccard of two empty sets is `1`. -/
theorem c3_counterexample :
    ctxE.temp_c = none ∧ ctxE.precip_prob = none ∧ ctxE.tpo = "" ∧ ctxE.mood = [] ∧
    ctx_similarity ctxE ctxE = 1 :=
  ⟨rfl, rfl, rfl, rfl, ctx_similarity_self ctxE⟩

/-- C3 amended: the temperature, precipitation and occasion dimensions
are excluded from numerator and denominator when missing on either side,
but the mood dimension is always included with weight `0.2` (its Jaccard
treating a missing mood list as empty); hence when the other three
dimensions are all non-comparable the similarity equals the (clamped)
mood Jaccard rather than `0`. -/
theorem c3_amended (a b : Ctx)
    (ht : a.temp_c = none ∨ b.temp_c = none)
    (hp : a.precip_prob = none ∨ b.precip_prob = none)
    (ho : a.tpo = "" ∨ b.tpo = "") :
    ctx_similarity a b = max 0 (min 1 (jaccard a.mood b.mood)) := by
  have h1 : temp_pair a.temp_c b.temp_c = (0, 0) := by
    rcases ht with h | h <;> rw [h]
    · rfl
    · rcases a.temp_c with _ | t <;> rfl
  have h2 : precip_pair a.precip_prob b.precip_prob = (0, 0) := by
    rcases hp with h | h <;> rw [h]
    · rfl
    · rcases a.precip_prob with _ | p <;> rfl
  have h3 : tpo_pair a.tpo b.tpo = (0, 0) := by
    rcases ho with h | h <;> simp [tpo_pair, h]
  unfold ctx_similarity
  rw [h1, h2, h3]
  simp only [mood_pair]
  norm_num

/-- Witness for C3 amended at the all-missing pair of contexts. -/
theorem c3_amended_witness :
    ctx_similarity ctxE ctxE = max 0 (min 1 (jaccard ctxE.mood ctxE.mood)) :=
  c3_amended ctxE ctxE (Or.inl rfl) (Or.inl rfl) (Or.inl rfl)

/-- C7 counterexample: the Jaccard of `{"a","b"}` and `{"b","c"}` is
`1/3` (one shared element out of three in the union), not the `0.5` the
claim asserts. -/
theorem c7_counterexample :
    jaccard ["a", "b"] ["b", "c"] ≠ 1/2 ∧ jaccard ["a", "b"] ["b", "c"] = 1/3 := by
  constructor <;> simp [jaccard]

/-- C7 amended: Jaccard of two empty sets is `1`; of a non-empty set and
an empty set (either order) `0`; of `{"a","b"}` and `{"b","c"}` it is
`1/3`; and on two non-empty sets it equals `|A ∩ B| / |A ∪ B|`. -/
theorem c7_jaccard_spec :
    jaccard [] [] = 1 ∧
    (∀ a : List String, a.toFinset ≠ ∅ → jaccard a [] = 0 ∧ jaccard [] a = 0) ∧
    jaccard ["a", "b"] ["b", "c"] = 1/3 ∧
    (∀ a b : List String, a.toFinset ≠ ∅ → b.toFinset ≠ ∅ →
      jaccard a b = ((a.toFinset ∩ b.toFinset).card : ℚ) /
        ((a.toFinset ∪ b.toFinset).card : ℚ)) := by
  refine ⟨by simp [jaccard], fun a ha => ?_, ?_, fun a b ha hb => ?_⟩
  · constructor <;> simp [jaccard, ha]
  · simp [jaccard]
  · have hcard : 0 < (a.toFinset ∪ b.toFinset).card :=
      Finset.card_pos.mpr <| Finset.Nonempty.mono Finset.subset_union_left
        (Finset.nonempty_iff_ne_empty.mpr ha)
    simp only [jaccard, ha, hb, false_and, if_false, or_self, false_or]
    rw [max_eq_right hcard]

/-- Witness for C7 amended: both parts with hypotheses instantiated at
the concrete non-empty list `["x"]`. -/
theorem c7_jaccard_spec_witness :
    (jaccard ["x"] [] = 0 ∧ jaccard [] ["x"] = 0) ∧
    jaccard ["x"] ["x"] = (((["x"] : List String).toFinset ∩ (["x"] : List String).toFinset).card : ℚ) /
      (((["x"] : List String).toFinset ∪ (["x"] : List String).toFinset).card : ℚ) :=
  ⟨c7_jaccard_spec.2.1 ["x"] (by simp),
   c7_jaccard_spec.2.2.2 ["x"] ["x"] (by simp) (by simp)⟩

/-- C6 counterexample: the tie-break term `(hash(id) mod 17) / 200`
attains the value `16/200 = 0.08` itself (when the id's hash is `16`
modulo `17`), so it does not lie in the half-open range `[0, 0.08)`.
The contribution is exhibited as the difference between the score under
a hash hitting residue `16` and the score under the zero hash. -/
theorem c6_counterexample :
    score_item_for_context hash16 top0 ctx0 - score_item_for_context hash0 top0 ctx0 = 0.08 ∧
    ¬ (score_item_for_context hash16 top0 ctx0 - score_item_for_context hash0 top0 ctx0 < 0.08) := by
  have h16 : score_item_for_context hash16 top0 ctx0 = 53/50 := by
    simp [score_item_for_context, hash16, top0, ctx0]
    norm_num
  have h0 : score_item_for_context hash0 top0 ctx0 = 49/50 := by
    simp [score_item_for_context, hash0, top0, ctx0]
    norm_num
  rw [h16, h0]
  norm_num

/-- C6 amended: the tie-break contribution (the difference the hash value
makes against the zero-hash baseline) equals `(hash(id) mod 17) / 200`
and lies in the closed range `[0, 0.08]`; the upper bound `16/200 = 0.08`
is attained, so the range is not the half-open `[0, 0.08)`. -/
theorem c6_tie_break (pyhash : String → ℤ) (item : Item) (ctx : Ctx) :
    score_item_for_context pyhash item ctx - score_item_for_context hash0 item ctx
      = ((pyhash item.id % 17 : ℤ) : ℚ) / 200 ∧
    0 ≤ ((pyhash item.id % 17 : ℤ) : ℚ) / 200 ∧
    ((pyhash item.id % 17 : ℤ) : ℚ) / 200 ≤ 0.08 := by
  have hmod0 : ∀ s : String, ((hash0 s % 17 : ℤ) : ℚ) = 0 := fun s => by
    simp [hash0]
  have hlo : (0 : ℤ) ≤ pyhash item.id % 17 :=
    Int.emod_nonneg _ (by norm_num)
  have hhi : pyhash item.id % 17 ≤ 16 := by
    have := Int.emod_lt_of_pos (pyhash item.id) (show (0:ℤ) < 17 by norm_num)
    omega
  refine ⟨?_, ?_, ?_⟩
  · simp only [score_item_for_context, hmod0]
    ring
  · positivity
  · rw [div_le_iff₀ (by norm_num : (0:ℚ) < 200)]
    calc ((pyhash item.id % 17 : ℤ) : ℚ) ≤ 16 := by exact_mod_cast hhi
    _ ≤ 0.08 * 200 := by norm_num

/-! ### Branch lemmas for `pick_best_items` -/

theorem pick_of_no_dress (pyhash : String → ℤ) (db : Db) (ctx : Ctx)
    (hd : best pyhash db.items ctx "원피스" = none) :
    pick_best_items pyhash db ctx = best_outfit pyhash db ctx := by
  simp [pick_best_items, best_outfit, hd]

theorem pick_of_dress_win (pyhash : String → ℤ) (db : Db) (ctx : Ctx) (d : Item)
    (hd : best pyhash db.items ctx "원피스" = some d)
    (hc : score_item_for_context pyhash d ctx >
      (opt_score pyhash ctx (best pyhash db.items ctx "상의") +
       opt_score pyhash ctx (best pyhash db.items ctx "하의")) / 1.8) :
    pick_best_items pyhash db ctx =
      { best_outfit pyhash db ctx with top := none, bottom := none } := by
  simp [pick_best_items, best_outfit, hd, hc]

theorem pick_of_dress_lose (pyhash : String → ℤ) (db : Db) (ctx : Ctx) (d : Item)
    (hd : best pyhash db.items ctx "원피스" = some d)
    (hc : ¬ score_item_for_context pyhash d ctx >
      (opt_score pyhash ctx (best pyhash db.items ctx "상의") +
       opt_score pyhash ctx (best pyhash db.items ctx "하의")) / 1.8) :
    pick_best_items pyhash db ctx = best_outfit pyhash db ctx := by
  simp [pick_best_items, best_outfit, hd, hc]

/-! ### Concrete evaluations in the two conflict scenarios -/

theorem score0_top : score_item_for_context hash0 top0 ctx0 = 49/50 := by
  simp [score_item_for_context, hash0, top0, ctx0]
  norm_num

theorem score0_bottom : score_item_for_context hash0 bottom0 ctx0 = 49/50 := by
  simp [score_item_for_context, hash0, bottom0, ctx0]
  norm_num

theorem score0_dress : score_item_for_context hash0 dress0 ctx0 = 49/50 := by
  simp [score_item_for_context, hash0, dress0, ctx0]
  norm_num

theorem scoreW_top : score_item_for_context hash0 topW ctx0 = 43/100 := by
  simp [score_item_for_context, hash0, topW, ctx0]
  norm_num [abs]

theorem scoreW_bottom : score_item_for_context hash0 bottomW ctx0 = 43/100 := by
  simp [score_item_for_context, hash0, bottomW, ctx0]
  norm_num [abs]

theorem scoreW_dress : score_item_for_context hash0 dressW ctx0 = 49/50 := by
  simp [score_item_for_context, hash0, dressW, ctx0]
  norm_num

theorem best0_top : best hash0 db0.items ctx0 "상의" = some top0 := by
  simp [best, db0, top0, bottom0, dress0, List.insertionSort, List.orderedInsert]

theorem best0_bottom : best hash0 db0.items ctx0 "하의" = some bottom0 := by
  simp [best, db0, top0, bottom0, dress0, List.insertionSort, List.orderedInsert]

theorem best0_dress : best hash0 db0.items ctx0 "원피스" = some dress0 := by
  simp [best, db0, top0, bottom0, dress0, List.insertionSort, List.orderedInsert]

theorem best0_empty :
    best hash0 db0.items ctx0 "아우터" = none ∧ best hash0 db0.items ctx0 "신발" = none ∧
    best hash0 db0.items ctx0 "가방" = none ∧ best hash0 db0.items ctx0 "악세서리" = none := by
  refine ⟨?_, ?_, ?_, ?_⟩ <;> simp [best, db0, top0, bottom0, dress0]

theorem pick0_lose_cond :
    ¬ score_item_for_context hash0 dress0 ctx0 >
      (opt_score hash0 ctx0 (best hash0 db0.items ctx0 "상의") +
       opt_score hash0 ctx0 (best hash0 db0.items ctx0 "하의")) / 1.8 := by
  rw [best0_top, best0_bottom]
  simp only [opt_score, score0_top, score0_bottom, score0_dress]
  norm_num

/-- In the separates-win scenario the dress stays in its slot. -/
theorem pick0_eq :
    pick_best_items hash0 db0 ctx0 =
      { outer := none, top := some top0, bottom := some bottom0, dress := some dress0,
        shoes := none, bag := none, accessory := none } := by
  rw [pick_of_dress_lose hash0 db0 ctx0 dress0 best0_dress pick0_lose_cond]
  simp [best_outfit, best0_top, best0_bottom, best0_dress, best0_empty.1,
    best0_empty.2.1, best0_empty.2.2.1, best0_empty.2.2.2]

theorem bestW_top : best hash0 db1.items ctx0 "상의" = some topW := by
  simp [best, db1, topW, bottomW, dressW, List.insertionSort, List.orderedInsert]

theorem bestW_bottom : best hash0 db1.items ctx0 "하의" = some bottomW := by
  simp [best, db1, topW, bottomW, dressW, List.insertionSort, List.orderedInsert]

theorem bestW_dress : best hash0 db1.items ctx0 "원피스" = some dressW := by
  simp [best, db1, topW, bottomW, dressW, List.insertionSort, List.orderedInsert]

theorem pickW_win_cond :
    score_item_for_context hash0 dressW ctx0 >
      (opt_score hash0 ctx0 (best hash0 db1.items ctx0 "상의") +
       opt_score hash0 ctx0 (best hash0 db1.items ctx0 "하의")) / 1.8 := by
  rw [bestW_top, bestW_bottom]
  simp only [opt_score, scoreW_top, scoreW_bottom, scoreW_dress]
  norm_num

/-! ### C1, C2, C9 -/

/-- C1 counterexample: in a wardrobe where the separates beat the dress
(`dress_score = 0.98 ≤ (0.98 + 0.98) / 1.8`), the returned outfit keeps
its best top and bottom — but the dress slot also still holds the best
dress, refuting the claim that the losing dress candidate "is not
placed" (a dress slot left empty). -/
theorem c1_counterexample :
    (pick_best_items hash0 db0 ctx0).dress = some dress0 ∧
    (pick_best_items hash0 db0 ctx0).top = some top0 ∧
    (pick_best_items hash0 db0 ctx0).bottom = some bottom0 ∧
    ¬ score_item_for_context hash0 dress0 ctx0 >
      (score_item_for_context hash0 top0 ctx0 +
       score_item_for_context hash0 bottom0 ctx0) / 1.8 := by
  refine ⟨?_, ?_, ?_, ?_⟩
  · rw [pick0_eq]
  · rw [pick0_eq]
  · rw [pick0_eq]
  · rw [score0_top, score0_bottom, score0_dress]
    norm_num

/-- C1 amended: the outer/shoes/bag/accessory slots always hold their
per-category best pick, and so does the dress slot (whenever a dress
candidate exists it is placed, win or lose); when the dress candidate
scores above `(topScore + bottomScore) / 1.8` the top and bottom slots
are cleared, and otherwise they keep their best picks. -/
theorem c1_dress_conflict (pyhash : String → ℤ) (db : Db) (ctx : Ctx) :
    (pick_best_items pyhash db ctx).outer = best pyhash db.items ctx "아우터" ∧
    (pick_best_items pyhash db ctx).shoes = best pyhash db.items ctx "신발" ∧
    (pick_best_items pyhash db ctx).bag = best pyhash db.items ctx "가방" ∧
    (pick_best_items pyhash db ctx).accessory = best pyhash db.items ctx "악세서리" ∧
    (pick_best_items pyhash db ctx).dress = best pyhash db.items ctx "원피스" ∧
    (∀ d : Item, best pyhash db.items ctx "원피스" = some d →
      (score_item_for_context pyhash d ctx >
        (opt_score pyhash ctx (best pyhash db.items ctx "상의") +
         opt_score pyhash ctx (best pyhash db.items ctx "하의")) / 1.8 →
        (pick_best_items pyhash db ctx).top = none ∧
        (pick_best_items pyhash db ctx).bottom = none) ∧
      (¬ score_item_for_context pyhash d ctx >
        (opt_score pyhash ctx (best pyhash db.items ctx "상의") +
         opt_score pyhash ctx (best pyhash db.items ctx "하의")) / 1.8 →
        (pick_best_items pyhash db ctx).top = best pyhash db.items ctx "상의" ∧
        (pick_best_items pyhash db ctx).bottom = best pyhash db.items ctx "하의")) ∧
    (best pyhash db.items ctx "원피스" = none →
      (pick_best_items pyhash db ctx).top = best pyhash db.items ctx "상의" ∧
      (pick_best_items pyhash db ctx).bottom = best pyhash db.items ctx "하의") := by
  rcases hd : best pyhash db.items ctx "원피스" with _ | d
  · rw [pick_of_no_dress pyhash db ctx hd]
    refine ⟨rfl, rfl, rfl, rfl, by simp [best_outfit, hd], fun d' hw => ?_,
      fun _ => ⟨rfl, rfl⟩⟩
    exact absurd hw (by simp)
  · by_cases hc : score_item_for_context pyhash d ctx >
        (opt_score pyhash ctx (best pyhash db.items ctx "상의") +
         opt_score pyhash ctx (best pyhash db.items ctx "하의")) / 1.8
    · rw [pick_of_dress_win pyhash db ctx d hd hc]
      refine ⟨rfl, rfl, rfl, rfl, by simp [best_outfit, hd], fun d' hw => ?_, fun hn => ?_⟩
      · rw [Option.some_inj] at hw
        subst hw
        exact ⟨fun _ => ⟨rfl, rfl⟩, fun hc' => absurd hc hc'⟩
      · exact absurd hn (by simp)
    · rw [pick_of_dress_lose pyhash db ctx d hd hc]
      refine ⟨rfl, rfl, rfl, rfl, by simp [best_outfit, hd], fun d' hw => ?_, fun hn => ?_⟩
      · rw [Option.some_inj] at hw
        subst hw
        exact ⟨fun hc' => absurd hc' hc, fun _ => ⟨rfl, rfl⟩⟩
      · exact absurd hn (by simp)

/-- Witness for C1 amended, in the dress-wins scenario: the conflict
rule fires, clearing top and bottom while the dress is placed. -/
theorem c1_dress_conflict_witness :
    (pick_best_items hash0 db1 ctx0).top = none ∧
    (pick_best_items hash0 db1 ctx0).bottom = none ∧
    (pick_best_items hash0 db1 ctx0).dress = some dressW := by
  obtain ⟨-, -, -, -, hdress, hbranch, -⟩ := c1_dress_conflict hash0 db1 ctx0
  obtain ⟨hwin, -⟩ := hbranch dressW bestW_dress
  obtain ⟨htop, hbot⟩ := hwin pickW_win_cond
  exact ⟨htop, hbot, by rw [hdress, bestW_dress]⟩

/-- C2 counterexample: in the separates-win scenario the returned outfit
has the top (and bottom) slot and the dress slot simultaneously
non-empty, refuting the slot-exclusivity invariant. -/
theorem c2_counterexample :
    (pick_best_items hash0 db0 ctx0).top = some top0 ∧
    (pick_best_items hash0 db0 ctx0).dress = some dress0 ∧
    (pick_best_items hash0 db0 ctx0).bottom = some bottom0 := by
  rw [pick0_eq]
  exact ⟨rfl, rfl, rfl⟩

/-- C2 amended: exclusivity only holds in the dress-wins branch — in any
returned outfit where the dress slot and the top or bottom slot are both
non-empty, the dress's score is at most `(topScore + bottomScore) / 1.8`
(the conflict comparison was lost, with the outfit's own top/bottom
picks realising the separates score). -/
theorem c2_slot_exclusivity (pyhash : String → ℤ) (db : Db) (ctx : Ctx) (d : Item)
    (hdress : (pick_best_items pyhash db ctx).dress = some d)
    (hne : (pick_best_items pyhash db ctx).top ≠ none ∨
      (pick_best_items pyhash db ctx).bottom ≠ none) :
    score_item_for_context pyhash d ctx ≤
      (opt_score pyhash ctx (pick_best_items pyhash db ctx).top +
       opt_score pyhash ctx (pick_best_items pyhash db ctx).bottom) / 1.8 := by
  rcases hd : best pyhash db.items ctx "원피스" with _ | d0
  · rw [pick_of_no_dress pyhash db ctx hd] at hdress
    exact absurd (hd.symm.trans hdress) (by simp)
  · by_cases hc : score_item_for_context pyhash d0 ctx >
        (opt_score pyhash ctx (best pyhash db.items ctx "상의") +
         opt_score pyhash ctx (best pyhash db.items ctx "하의")) / 1.8
    · rw [pick_of_dress_win pyhash db ctx d0 hd hc] at hne
      rcases hne with h | h <;> exact absurd rfl h
    · rw [pick_of_dress_lose pyhash db ctx d0 hd hc] at hdress ⊢
      have hdd : d = d0 := by
        have := hd.symm.trans hdress
        exact (Option.some_inj.mp this).symm
      subst hdd
      exact not_lt.mp hc

/-- Witness for C2 amended at the separates-win scenario. -/
theorem c2_slot_exclusivity_witness :
    score_item_for_context hash0 dress0 ctx0 ≤
      (opt_score hash0 ctx0 (pick_best_items hash0 db0 ctx0).top +
       opt_score hash0 ctx0 (pick_best_items hash0 db0 ctx0).bottom) / 1.8 :=
  c2_slot_exclusivity hash0 db0 ctx0 dress0 (by rw [pick0_eq]) (by rw [pick0_eq]; simp)

/-- C9: composing from an empty item list yields the all-empty outfit
(no error — the function is total), and rendering an outfit with no
populated slot yields the designated non-empty placeholder string. -/
theorem c9_empty_wardrobe (pyhash : String → ℤ) (ctx : Ctx) (db : Db) (o : Outfit) :
    (db.items = [] → pick_best_items pyhash db ctx = outfitE) ∧
    (o.outer = none → o.top = none → o.bottom = none → o.dress = none → o.shoes = none →
      o.bag = none → o.accessory = none → outfit_to_text o = no_items_text) ∧
    no_items_text ≠ "" := by
  refine ⟨fun h => ?_, fun h1 h2 h3 h4 h5 h6 h7 => ?_, by decide⟩
  · simp [pick_best_items, best_outfit, best, h, outfitE]
  · rcases o with ⟨o1, o2, o3, o4, o5, o6, o7⟩
    dsimp only at h1 h2 h3 h4 h5 h6 h7
    subst h1 h2 h3 h4 h5 h6 h7
    rfl

/-- Witness for C9 at the empty database and the all-empty outfit. -/
theorem c9_empty_wardrobe_witness :
    pick_best_items hash0 dbE ctx0 = outfitE ∧ outfit_to_text outfitE = no_items_text :=
  ⟨(c9_empty_wardrobe hash0 ctx0 dbE outfitE).1 rfl,
   (c9_empty_wardrobe hash0 ctx0 dbE outfitE).2.1 rfl rfl rfl rfl rfl rfl rfl⟩

/-! ### C8: the reference ranker -/

/-- Sortedness of the ranker's output: the returned posts are pairwise
ordered by non-increasing final score. -/
theorem similar_refs_sorted (db : Db) (ctx : Ctx) (now : ℝ) (k : ℕ) :
    (get_similar_references db ctx now k).Pairwise
      (fun p q => final_score db ctx now q ≤ final_score db ctx now p) := by
  unfold get_similar_references
  dsimp only
  haveI : IsTotal (ℝ × ℚ × ℤ × Post) (fun x y => y.1 ≤ x.1) :=
    ⟨fun a b => le_total b.1 a.1⟩
  haveI : IsTrans (ℝ × ℚ × ℤ × Post) (fun x y => y.1 ≤ x.1) :=
    ⟨fun a b c h1 h2 => le_trans h2 h1⟩
  apply List.pairwise_map.mpr
  have hsorted :
      (List.insertionSort (fun x y => y.1 ≤ x.1)
        (db.posts.map (fun p =>
          (final_score db ctx now p, ctx_similarity ctx p.ctx, db.likes p.id, p)))).Pairwise
        (fun x y => y.1 ≤ x.1) :=
    List.sorted_insertionSort _ _
  have hpair := hsorted.sublist (List.take_sublist k _)
  refine List.Pairwise.imp_of_mem (fun ha hb hr => ?_) hpair
  have hval : ∀ x, x ∈ (List.insertionSort (fun x y => y.1 ≤ x.1)
      (db.posts.map (fun p =>
        (final_score db ctx now p, ctx_similarity ctx p.ctx, db.likes p.id, p)))).take k →
      x.1 = final_score db ctx now x.2.2.2 := by
    intro x hx
    have hx1 := (List.take_sublist k _).subset hx
    have hx2 := (List.perm_insertionSort _ _).subset hx1
    obtain ⟨p, -, rfl⟩ := List.mem_map.mp hx2
    rfl
  rw [← hval _ ha, ← hval _ hb]
  exact hr

/-- C8 amended: the output has length at most `topK` and is sorted by
final score descending, where the final score is
`0.75 × sim + 0.25 × min(1, trend / 5)` with
`trend = likes / sqrt(max(1, ageHours))`; with equal similarity a
strictly larger *capped* popularity term `min(1, trend / 5)` gives a
strictly larger final score (hence an earlier rank), and with equal
trend a strictly larger similarity does.  (A strictly larger raw trend
alone does not: the cap can equalise the final scores, and the stable
sort then keeps the input order.) -/
theorem c8_reference_ranking (db : Db) (ctx : Ctx) (now : ℝ) (k : ℕ) (pA pB : Post) :
    (get_similar_references db ctx now k).length ≤ k ∧
    (get_similar_references db ctx now k).Pairwise
      (fun p q => final_score db ctx now q ≤ final_score db ctx now p) ∧
    final_score db ctx now pA =
      0.75 * ((ctx_similarity ctx pA.ctx : ℚ) : ℝ) +
        0.25 * min 1 (trending_score now pA (db.likes pA.id) / 5) ∧
    (ctx_similarity ctx pA.ctx = ctx_similarity ctx pB.ctx →
      min 1 (trending_score now pB (db.likes pB.id) / 5) <
        min 1 (trending_score now pA (db.likes pA.id) / 5) →
      final_score db ctx now pB < final_score db ctx now pA) ∧
    (trending_score now pA (db.likes pA.id) = trending_score now pB (db.likes pB.id) →
      ctx_similarity ctx pB.ctx < ctx_similarity ctx pA.ctx →
      final_score db ctx now pB < final_score db ctx now pA) := by
  refine ⟨?_, similar_refs_sorted db ctx now k, ?_, ?_, ?_⟩
  · unfold get_similar_references
    dsimp only
    rw [List.length_map, List.length_take]
    exact min_le_left _ _
  · unfold final_score
    dsimp only
    ring
  · intro hsim hlt
    have hsim' : ((ctx_similarity ctx pA.ctx : ℚ) : ℝ) = ((ctx_similarity ctx pB.ctx : ℚ) : ℝ) := by
      rw [hsim]
    unfold final_score
    dsimp only
    rw [hsim']
    linarith
  · intro htr hsim
    have hsim' : ((ctx_similarity ctx pB.ctx : ℚ) : ℝ) < ((ctx_similarity ctx pA.ctx : ℚ) : ℝ) := by
      exact_mod_cast hsim
    unfold final_score
    dsimp only
    rw [htr]
    linarith

/-- The square root of the floored one-hour age at `now = 3600` for a
post created at time `0`. -/
theorem age_sqrt_one : Real.sqrt (max 1 (((3600 : ℝ) - 0) / 3600)) = 1 := by
  rw [show ((3600 : ℝ) - 0) / 3600 = 1 by norm_num, max_self, Real.sqrt_one]

theorem trend_B6 : trending_score 3600 postB6 (dbX.likes postB6.id) = 6 := by
  unfold trending_score
  dsimp only
  rw [show dbX.likes postB6.id = 6 by rfl, show postB6.created_at = (0:ℝ) by rfl,
    age_sqrt_one]
  norm_num

theorem trend_A10 : trending_score 3600 postA10 (dbX.likes postA10.id) = 10 := by
  unfold trending_score
  dsimp only
  rw [show dbX.likes postA10.id = 10 by rfl, show postA10.created_at = (0:ℝ) by rfl,
    age_sqrt_one]
  norm_num

theorem final_B6 : final_score dbX ctx0 3600 postB6 = 1 := by
  unfold final_score
  dsimp only
  rw [show postB6.ctx = ctx0 by rfl, ctx_similarity_self, trend_B6,
    show min (1:ℝ) (6/5) = 1 from min_eq_left (by norm_num)]
  norm_num

theorem final_A10 : final_score dbX ctx0 3600 postA10 = 1 := by
  unfold final_score
  dsimp only
  rw [show postA10.ctx = ctx0 by rfl, ctx_similarity_self, trend_A10,
    show min (1:ℝ) (10/5) = 1 from min_eq_left (by norm_num)]
  norm_num

/-- C8 counterexample: two posts with identical similarity to the query
context, the second with strictly higher trend (10 versus 6, both one
hour old); because both trends exceed the cap (`min(1, trend/5)` is `1`
for both) their final scores tie, and the stable sort keeps the
lower-trend post first — the claim that the higher-trend post ranks
first fails. -/
theorem c8_counterexample :
    get_similar_references dbX ctx0 3600 3 = [postB6, postA10] ∧
    trending_score 3600 postB6 (dbX.likes postB6.id) <
      trending_score 3600 postA10 (dbX.likes postA10.id) ∧
    ctx_similarity ctx0 postB6.ctx = ctx_similarity ctx0 postA10.ctx := by
  refine ⟨?_, ?_, rfl⟩
  · unfold get_similar_references
    dsimp only
    rw [show dbX.posts = [postB6, postA10] by rfl]
    simp only [List.map]
    simp only [List.insertionSort, List.orderedInsert]
    rw [if_pos]
    · rfl
    · show final_score dbX ctx0 3600 postA10 ≤ final_score dbX ctx0 3600 postB6
      rw [final_A10, final_B6]
  · rw [trend_B6, trend_A10]
    norm_num

/-- Witness for C8 amended: with equal similarity, capped trend `1`
versus `0` yields a strictly smaller final score for the like-less
post. -/
theorem c8_reference_ranking_witness :
    final_score dbW ctx0 3600 postBW < final_score dbW ctx0 3600 postAW := by
  apply (c8_reference_ranking dbW ctx0 3600 3 postAW postBW).2.2.2.1 rfl
  have hB : trending_score 3600 postBW (dbW.likes postBW.id) = 0 := by
    unfold trending_score
    dsimp only
    rw [show dbW.likes postBW.id = 0 by rfl]
    norm_num
  have hA : trending_score 3600 postAW (dbW.likes postAW.id) = 5 := by
    unfold trending_score
    dsimp only
    rw [show dbW.likes postAW.id = 5 by rfl, show postAW.created_at = (0:ℝ) by rfl,
      age_sqrt_one]
    norm_num
  rw [hA, hB]
  norm_num

end TodaysFashion
